import Mathlib

/-!
Verification development for the `three-web-components` repository
(`petitatelier/three-web-components`): a shallow embedding, in Lean 4, of
the registry / active-selection protocol of the `ThreeApp` root element,
the `ThreeCamera` element's update pipeline, the OSC camera controller,
and the `ThreeForceGraph` element's resource bookkeeping, together with
theorems about the spec's testable properties.

Conventions of the embedding:

* JavaScript `Map` objects (insertion-ordered, string-keyed) are embedded
  as insertion-ordered `List String` of keys: `Map.set` appends the key
  when absent and keeps the original position when present;
  `Map.delete` erases the key; `map.values().next().value` is `List.head?`.
* `undefined` / absent values are embedded as `Option`.
* Backend (THREE.js) side effects are recorded as explicit event lists;
  a thrown `TypeError` (a property access on `undefined`) is recorded as
  a dedicated fault event or flag, and aborts the remaining statements of
  the function that threw.
* Machine numbers (sizes, coordinates, frustum parameters) are embedded
  as rationals `ℚ`; the handlers under verification use only field
  arithmetic and comparisons, so `ℚ` is faithful to them.
-/

namespace ThreeWebComponents

/-! ## ThreeApp (`src/unnamed/part_008`): camera/scene registries and
active selection.

State of a `ThreeApp` element, restricted to the fields the registry and
render-loop protocol reads and writes: the two registries (`_cameras`,
`_scenes`, embedded as insertion-ordered key lists), the active selections
(`_activeCamera`, `_activeScene`, embedded at the level of element ids:
the JS fields hold element references, whose `id` is what the `camera` /
`scene` getters expose and what the claims are about), and the renderer's
display-buffer size (`renderer.getSize()`), used by `needsResize`.
Diagnostic-only timing fields (`_fpsActual`, `_intervalActual`) are not
modelled: `updateTimings` writes only them. -/
structure ThreeAppState where
  cameras : List String
  scenes : List String
  activeCamera : Option String
  activeScene : Option String
  rendererSize : ℚ × ℚ
deriving DecidableEq, Repr

/-- Initial state, from the `ThreeApp` constructor: empty registries, no
active camera or scene; a fresh `WebGLRenderer` reports size 0×0. -/
def initApp : ThreeAppState :=
  { cameras := [], scenes := [], activeCamera := none, activeScene := none,
    rendererSize := (0, 0) }

/-- `Map.set(id, v)` at key level: keep the position of an existing key
(the value is overwritten in place), append a new key at the end. -/
def mapSet (l : List String) (id : String) : List String :=
  if id ∈ l then l else l ++ [id]

/-- The `camera` property setter of `ThreeApp` (part_008, lines 114–136),
at id level.  `none` embeds the JS `null` (attribute removed).
If the id is non-null it is looked up in the registry; if it was null, or
the lookup failed, the active camera falls back to the first registered
camera (`_cameras.values().next().value`), which is `undefined` when the
registry is empty. -/
def setCameraAttr (st : ThreeAppState) (newId : Option String) : ThreeAppState :=
  match newId with
  | some id =>
      if id ∈ st.cameras then { st with activeCamera := some id }
      else { st with activeCamera := st.cameras.head? }
  | none => { st with activeCamera := st.cameras.head? }

/-- The `scene` property setter of `ThreeApp` (part_008, lines 82–104),
symmetric to the `camera` setter. -/
def setSceneAttr (st : ThreeAppState) (newId : Option String) : ThreeAppState :=
  match newId with
  | some id =>
      if id ∈ st.scenes then { st with activeScene := some id }
      else { st with activeScene := st.scenes.head? }
  | none => { st with activeScene := st.scenes.head? }

/-- `ThreeApp.registerCamera` (part_008, lines 358–380): insert into the
registry; if the `camera` getter returns `undefined` (no active camera —
the map insertion does not touch `_activeCamera`, so the guard reads the
incoming state's selection), set the new camera active through the
`camera` setter.  The trailing aspect-ratio assignment
(`camera.updateAspectRatio(ratio)`) acts on the camera element's backend
object, not on the registry state modelled here. -/
def registerCamera (st : ThreeAppState) (id : String) : ThreeAppState :=
  if st.activeCamera = none then
    setCameraAttr { st with cameras := mapSet st.cameras id } (some id)
  else { st with cameras := mapSet st.cameras id }

/-- `ThreeApp.deregisterCamera` (part_008, lines 388–393): delete the key
from the registry, then `this.camera = null` — the setter defaults to the
first remaining camera (or `undefined`). -/
def deregisterCamera (st : ThreeAppState) (id : String) : ThreeAppState :=
  setCameraAttr { st with cameras := st.cameras.erase id } none

/-- `ThreeApp.registerScene` (part_008, lines 402–414), symmetric to
`registerCamera` without the aspect-ratio step. -/
def registerScene (st : ThreeAppState) (id : String) : ThreeAppState :=
  if st.activeScene = none then
    setSceneAttr { st with scenes := mapSet st.scenes id } (some id)
  else { st with scenes := mapSet st.scenes id }

/-- `ThreeApp.deregisterScene` (part_008, lines 423–428). -/
def deregisterScene (st : ThreeAppState) (id : String) : ThreeAppState :=
  setSceneAttr { st with scenes := st.scenes.erase id } none

/-- The operations that mutate the registry / active-selection state of a
`ThreeApp`: register/deregister notifications from child elements, and
direct writes of the `camera` / `scene` attributes (an arbitrary string,
or `null` on attribute removal). -/
inductive AppOp where
  | regCamera (id : String)
  | deregCamera (id : String)
  | setCamera (id : Option String)
  | regScene (id : String)
  | deregScene (id : String)
  | setScene (id : Option String)
deriving DecidableEq, Repr

/-- One registry operation applied to the app state. -/
def applyOp (st : ThreeAppState) (op : AppOp) : ThreeAppState :=
  match op with
  | .regCamera id => registerCamera st id
  | .deregCamera id => deregisterCamera st id
  | .setCamera id => setCameraAttr st id
  | .regScene id => registerScene st id
  | .deregScene id => deregisterScene st id
  | .setScene id => setSceneAttr st id

/-- A sequence of registry operations run from the initial state. -/
def runApp (ops : List AppOp) : ThreeAppState :=
  ops.foldl applyOp initApp

/-- The no-dangling invariant of the camera selection: the active camera
id, when defined, is a key of the camera registry. -/
def camInv (st : ThreeAppState) : Prop :=
  ∀ id, st.activeCamera = some id → id ∈ st.cameras

theorem mem_of_head?_eq_some {l : List String} {a : String}
    (h : l.head? = some a) : a ∈ l := by
  cases l with
  | nil => simp at h
  | cons b t => simp only [List.head?_cons, Option.some.injEq] at h; simp [h]

theorem mem_mapSet_of_mem {l : List String} {a id : String} (h : a ∈ l) :
    a ∈ mapSet l id := by
  unfold mapSet
  split <;> simp [h]

theorem mem_mapSet_self (l : List String) (id : String) : id ∈ mapSet l id := by
  unfold mapSet
  split <;> simp_all

theorem setCameraAttr_cameras (st : ThreeAppState) (newId : Option String) :
    (setCameraAttr st newId).cameras = st.cameras := by
  unfold setCameraAttr
  split
  · split <;> rfl
  · rfl

theorem setSceneAttr_cameras (st : ThreeAppState) (newId : Option String) :
    (setSceneAttr st newId).cameras = st.cameras := by
  unfold setSceneAttr
  split
  · split <;> rfl
  · rfl

theorem setSceneAttr_activeCamera (st : ThreeAppState) (newId : Option String) :
    (setSceneAttr st newId).activeCamera = st.activeCamera := by
  unfold setSceneAttr
  split
  · split <;> rfl
  · rfl

theorem camInv_setCameraAttr (st : ThreeAppState) (newId : Option String) :
    camInv (setCameraAttr st newId) := by
  intro a ha
  rw [setCameraAttr_cameras]
  unfold setCameraAttr at ha
  cases newId with
  | some id =>
      simp only at ha
      split at ha
      · simp only [Option.some.injEq] at ha
        subst ha; assumption
      · exact mem_of_head?_eq_some ha
  | none =>
      simp only at ha
      exact mem_of_head?_eq_some ha

theorem camInv_registerCamera {st : ThreeAppState} (h : camInv st) (id : String) :
    camInv (registerCamera st id) := by
  unfold registerCamera
  split
  · exact camInv_setCameraAttr _ _
  · intro a ha
    exact mem_mapSet_of_mem (h a ha)

theorem camInv_deregisterCamera (st : ThreeAppState) (id : String) :
    camInv (deregisterCamera st id) :=
  camInv_setCameraAttr _ _

theorem registerScene_cameras (st : ThreeAppState) (id : String) :
    (registerScene st id).cameras = st.cameras := by
  unfold registerScene
  split
  · rw [setSceneAttr_cameras]
  · rfl

theorem registerScene_activeCamera (st : ThreeAppState) (id : String) :
    (registerScene st id).activeCamera = st.activeCamera := by
  unfold registerScene
  split
  · rw [setSceneAttr_activeCamera]
  · rfl

theorem camInv_applyOp {st : ThreeAppState} (h : camInv st) (op : AppOp) :
    camInv (applyOp st op) := by
  cases op with
  | regCamera id => exact camInv_registerCamera h id
  | deregCamera id => exact camInv_deregisterCamera st id
  | setCamera id => exact camInv_setCameraAttr st id
  | regScene id =>
      intro a ha
      simp only [applyOp] at ha ⊢
      rw [registerScene_activeCamera] at ha
      rw [registerScene_cameras]
      exact h a ha
  | deregScene id =>
      intro a ha
      simp only [applyOp, deregisterScene] at ha ⊢
      rw [setSceneAttr_activeCamera] at ha
      rw [setSceneAttr_cameras]
      exact h a ha
  | setScene id =>
      intro a ha
      simp only [applyOp] at ha ⊢
      rw [setSceneAttr_activeCamera] at ha
      rw [setSceneAttr_cameras]
      exact h a ha

theorem camInv_foldl (ops : List AppOp) :
    ∀ st, camInv st → camInv (ops.foldl applyOp st) := by
  induction ops with
  | nil => intro st h; exact h
  | cons op t ih => intro st h; exact ih _ (camInv_applyOp h op)

theorem camInv_initApp : camInv initApp := by
  intro a ha
  simp [initApp] at ha

/-- C1: for every sequence of register/deregister operations on the
`ThreeApp` registries (including writes of the `camera` attribute to an
arbitrary string or `null`), the active camera id is either undefined or
a key currently present in the camera registry — it never dangles to a
removed or never-registered camera. -/
theorem activeCameraId_no_dangling (ops : List AppOp) (id : String)
    (h : (runApp ops).activeCamera = some id) :
    id ∈ (runApp ops).cameras :=
  camInv_foldl ops initApp camInv_initApp id h

/-- Witness for C1 at a concrete operation sequence. -/
theorem activeCameraId_no_dangling_witness :
    (runApp [AppOp.regCamera "cam1", AppOp.regCamera "cam2",
      AppOp.deregCamera "cam1"]).activeCamera = some "cam2" ∧
    "cam2" ∈ (runApp [AppOp.regCamera "cam1", AppOp.regCamera "cam2",
      AppOp.deregCamera "cam1"]).cameras :=
  ⟨by decide, activeCameraId_no_dangling
    [AppOp.regCamera "cam1", AppOp.regCamera "cam2", AppOp.deregCamera "cam1"]
    "cam2" (by decide)⟩

/-- The active camera is defined whenever the camera registry is
non-empty. -/
def activeWhenNonEmpty (st : ThreeAppState) : Prop :=
  st.cameras ≠ [] → st.activeCamera ≠ none

theorem head?_ne_none_of_ne_nil {l : List String} (h : l ≠ []) :
    l.head? ≠ none := by
  cases l with
  | nil => exact absurd rfl h
  | cons a t => simp

theorem activeWhenNonEmpty_setCameraAttr (st : ThreeAppState)
    (newId : Option String) : activeWhenNonEmpty (setCameraAttr st newId) := by
  intro hne
  rw [setCameraAttr_cameras] at hne
  unfold setCameraAttr
  cases newId with
  | some id =>
      simp only
      split
      · simp
      · exact head?_ne_none_of_ne_nil hne
  | none =>
      exact head?_ne_none_of_ne_nil hne

theorem activeWhenNonEmpty_registerCamera (st : ThreeAppState) (id : String) :
    activeWhenNonEmpty (registerCamera st id) := by
  unfold registerCamera
  split
  · exact activeWhenNonEmpty_setCameraAttr _ _
  · next hg => intro _; exact hg

theorem activeWhenNonEmpty_applyOp {st : ThreeAppState}
    (h : activeWhenNonEmpty st) (op : AppOp) :
    activeWhenNonEmpty (applyOp st op) := by
  cases op with
  | regCamera id => exact activeWhenNonEmpty_registerCamera st id
  | deregCamera id => exact activeWhenNonEmpty_setCameraAttr _ _
  | setCamera id => exact activeWhenNonEmpty_setCameraAttr _ _
  | regScene id =>
      intro hne
      rw [show (applyOp st (AppOp.regScene id)).cameras = st.cameras from
        registerScene_cameras st id] at hne
      rw [show (applyOp st (AppOp.regScene id)).activeCamera = st.activeCamera from
        registerScene_activeCamera st id]
      exact h hne
  | deregScene id =>
      intro hne
      rw [show (applyOp st (AppOp.deregScene id)).cameras = st.cameras from
        setSceneAttr_cameras _ _] at hne
      rw [show (applyOp st (AppOp.deregScene id)).activeCamera = st.activeCamera from
        setSceneAttr_activeCamera _ _]
      exact h hne
  | setScene id =>
      intro hne
      rw [show (applyOp st (AppOp.setScene id)).cameras = st.cameras from
        setSceneAttr_cameras _ _] at hne
      rw [show (applyOp st (AppOp.setScene id)).activeCamera = st.activeCamera from
        setSceneAttr_activeCamera _ _]
      exact h hne

theorem activeWhenNonEmpty_foldl (ops : List AppOp) :
    ∀ st, activeWhenNonEmpty st → activeWhenNonEmpty (ops.foldl applyOp st) := by
  induction ops with
  | nil => intro st h; exact h
  | cons op t ih => intro st h; exact ih _ (activeWhenNonEmpty_applyOp h op)

/-- C2: (a) registering a further camera while one is active leaves the
active camera id unchanged; (b) deregistering the active camera sets the
active id to the head of the remaining registry in insertion order (the
first-inserted remaining key, deterministically), which is defined
whenever cameras remain; (c) over every operation sequence, the active
camera id is never undefined while the camera registry is non-empty. -/
theorem register_dereg_active_selection :
    (∀ (st : ThreeAppState) (a id₂ : String), st.activeCamera = some a →
        (registerCamera st id₂).activeCamera = some a) ∧
    (∀ (st : ThreeAppState) (a : String), st.activeCamera = some a →
        (deregisterCamera st a).activeCamera = (st.cameras.erase a).head? ∧
        (st.cameras.erase a ≠ [] → (deregisterCamera st a).activeCamera ≠ none)) ∧
    (∀ ops : List AppOp, (runApp ops).cameras ≠ [] →
        (runApp ops).activeCamera ≠ none) := by
  refine ⟨?_, ?_, ?_⟩
  · intro st a id₂ hA
    unfold registerCamera
    rw [if_neg (by rw [hA]; exact Option.some_ne_none a)]
    exact hA
  · intro st a _
    refine ⟨rfl, fun hne => ?_⟩
    exact head?_ne_none_of_ne_nil hne
  · intro ops
    exact activeWhenNonEmpty_foldl ops initApp (fun h => absurd rfl h)

/-- Witness for C2 at concrete states: a second registration with an
active camera, a deregistration of the active camera with one remaining,
and a concrete operation sequence with a non-empty registry. -/
theorem register_dereg_active_selection_witness :
    (registerCamera (runApp [AppOp.regCamera "cam1"]) "cam2").activeCamera
        = some "cam1" ∧
    (deregisterCamera (runApp [AppOp.regCamera "cam1", AppOp.regCamera "cam2"])
        "cam1").activeCamera
      = ((runApp [AppOp.regCamera "cam1", AppOp.regCamera "cam2"]).cameras.erase
          "cam1").head? ∧
    (runApp [AppOp.regCamera "cam1", AppOp.regCamera "cam2"]).activeCamera ≠ none :=
  ⟨register_dereg_active_selection.1 (runApp [AppOp.regCamera "cam1"]) "cam1" "cam2"
      (by decide),
   (register_dereg_active_selection.2.1
      (runApp [AppOp.regCamera "cam1", AppOp.regCamera "cam2"]) "cam1"
      (by decide)).1,
   register_dereg_active_selection.2.2
      [AppOp.regCamera "cam1", AppOp.regCamera "cam2"] (by decide)⟩

/-- C4 counterexample: with cameras `camA`, `camB`, `camC` registered in
this order and `camB` active, deregistering the non-active `camC` changes
the active camera id from `camB` to `camA`: `deregisterCamera` resets the
selection to the first remaining key unconditionally, not only when the
deregistered camera was the active one, refuting the claim. -/
theorem deregister_nonactive_changes_selection :
    (runApp [AppOp.regCamera "camA", AppOp.regCamera "camB", AppOp.regCamera "camC",
        AppOp.setCamera (some "camB")]).activeCamera = some "camB" ∧
    ("camC" : String) ≠ "camB" ∧
    (deregisterCamera (runApp [AppOp.regCamera "camA", AppOp.regCamera "camB",
        AppOp.regCamera "camC", AppOp.setCamera (some "camB")])
        "camC").activeCamera = some "camA" ∧
    (some "camA" : Option String) ≠ some "camB" := by
  refine ⟨by decide, by decide, by decide, by decide⟩

/-- C4 amended: `deregisterCamera(id)` removes exactly that entry from the
camera registry (scene registry untouched) and unconditionally resets the
active camera to the first-inserted remaining key (or none); the active
camera id is therefore preserved exactly when the previously active camera
is the first-inserted remaining key — deregistering a non-active camera
can change the selection when the active camera was not first-inserted. -/
theorem deregisterCamera_removes_entry_resets_first (st : ThreeAppState)
    (id : String) :
    (deregisterCamera st id).cameras = st.cameras.erase id ∧
    (deregisterCamera st id).scenes = st.scenes ∧
    (deregisterCamera st id).activeScene = st.activeScene ∧
    (deregisterCamera st id).activeCamera = (st.cameras.erase id).head? ∧
    (∀ a, st.activeCamera = some a → (st.cameras.erase id).head? = some a →
        (deregisterCamera st id).activeCamera = st.activeCamera) := by
  refine ⟨rfl, rfl, rfl, rfl, ?_⟩
  intro a hA hHead
  show (st.cameras.erase id).head? = st.activeCamera
  rw [hA, hHead]

/-- Witness for C4 amended at a concrete state. -/
theorem deregisterCamera_removes_entry_resets_first_witness :
    (deregisterCamera (runApp [AppOp.regCamera "camA", AppOp.regCamera "camB"])
        "camB").activeCamera
      = (runApp [AppOp.regCamera "camA", AppOp.regCamera "camB"]).activeCamera :=
  (deregisterCamera_removes_entry_resets_first
      (runApp [AppOp.regCamera "camA", AppOp.regCamera "camB"]) "camB").2.2.2.2
    "camA" (by decide) (by decide)

/-! ## ThreeApp render loop: `needsResize` / `resize` / `step`
(part_008, lines 288–350).

Backend calls are recorded as events.  `AppEvent.fault` records a thrown
`TypeError` — in `step`, the render call evaluates
`this._activeScene.scene` and `this._activeCamera.camera`, which throws
when either field is `undefined`.  The model covers the post-`init()`
regime, in which the canvas element exists; its client size is the
`canvas` argument. -/
inductive AppEvent where
  | updateAspect (id : String) (ratio : ℚ)
  | setSize (w h : ℚ)
  | stepScene (id : String)
  | stepCamera (id : String)
  | render (sceneId cameraId : String)
  | fault
deriving DecidableEq, Repr

/-- `ThreeApp.getDisplaySize` (part_008, lines 318–327): client width,
height and ratio of the canvas. -/
def getDisplaySize (canvas : ℚ × ℚ) : ℚ × ℚ × ℚ :=
  (canvas.1, canvas.2, canvas.1 / canvas.2)

/-- `ThreeApp.needsResize` (part_008, lines 334–338): true when the
renderer's buffer size differs from the canvas client size. -/
def needsResize (st : ThreeAppState) (canvas : ℚ × ℚ) : Bool :=
  st.rendererSize.1 != (getDisplaySize canvas).1 ||
    st.rendererSize.2 != (getDisplaySize canvas).2.1

/-- `ThreeApp.resize` (part_008, lines 345–350): unconditionally updates
the aspect ratio of every registered camera, then resizes the renderer's
display buffer to the canvas client size. -/
def resizeApp (st : ThreeAppState) (canvas : ℚ × ℚ) :
    ThreeAppState × List AppEvent :=
  ({ st with rendererSize := ((getDisplaySize canvas).1, (getDisplaySize canvas).2.1) },
   st.cameras.map (fun id => AppEvent.updateAspect id (getDisplaySize canvas).2.2) ++
     [AppEvent.setSize (getDisplaySize canvas).1 (getDisplaySize canvas).2.1])

/-- The resize phase of `ThreeApp.step`:
`if (this.needsResize()) { this.resize(); }`. -/
def guardedResize (st : ThreeAppState) (canvas : ℚ × ℚ) :
    ThreeAppState × List AppEvent :=
  if needsResize st canvas then resizeApp st canvas else (st, [])

/-- The render call of `ThreeApp.step`:
`this._renderer.render(this._activeScene.scene, this._activeCamera.camera)`.
Evaluating either argument throws a `TypeError` when the corresponding
active selection is `undefined`; only when both are defined does the
renderer receive one render call. -/
def renderPhase (st : ThreeAppState) : List AppEvent :=
  match st.activeScene, st.activeCamera with
  | some s, some c => [AppEvent.render s c]
  | _, _ => [AppEvent.fault]

/-- `ThreeApp.step` (part_008, lines 288–296): resize if needed, step
every registered scene, step every registered camera, then issue the
render call.  `updateTimings` writes only the diagnostic `_fpsActual` /
`_intervalActual` fields and is not modelled. -/
def stepApp (st : ThreeAppState) (canvas : ℚ × ℚ) :
    ThreeAppState × List AppEvent :=
  let r := guardedResize st canvas
  (r.1, r.2 ++ r.1.scenes.map AppEvent.stepScene ++
    r.1.cameras.map AppEvent.stepCamera ++ renderPhase r.1)

/-- Recognizes a render event. -/
def isRenderEv : AppEvent → Bool
  | .render _ _ => true
  | _ => false

/-- Recognizes a fault (thrown `TypeError`) event. -/
def isFaultEv : AppEvent → Bool
  | .fault => true
  | _ => false

/-- Recognizes a renderer `setSize` call. -/
def isSetSizeEv : AppEvent → Bool
  | .setSize _ _ => true
  | _ => false

theorem resizeApp_fields (st : ThreeAppState) (canvas : ℚ × ℚ) :
    (resizeApp st canvas).1.cameras = st.cameras ∧
    (resizeApp st canvas).1.scenes = st.scenes ∧
    (resizeApp st canvas).1.activeCamera = st.activeCamera ∧
    (resizeApp st canvas).1.activeScene = st.activeScene :=
  ⟨rfl, rfl, rfl, rfl⟩

theorem guardedResize_fields (st : ThreeAppState) (canvas : ℚ × ℚ) :
    (guardedResize st canvas).1.cameras = st.cameras ∧
    (guardedResize st canvas).1.scenes = st.scenes ∧
    (guardedResize st canvas).1.activeCamera = st.activeCamera ∧
    (guardedResize st canvas).1.activeScene = st.activeScene := by
  unfold guardedResize
  split
  · exact resizeApp_fields st canvas
  · exact ⟨rfl, rfl, rfl, rfl⟩

theorem renderPhase_eq_fault {st : ThreeAppState}
    (h : st.activeScene = none ∨ st.activeCamera = none) :
    renderPhase st = [AppEvent.fault] := by
  unfold renderPhase
  cases hs : st.activeScene with
  | none => rfl
  | some s =>
      cases hc : st.activeCamera with
      | none => rfl
      | some c => rcases h with h | h <;> simp_all

theorem renderPhase_eq_render {st : ThreeAppState} {s c : String}
    (hs : st.activeScene = some s) (hc : st.activeCamera = some c) :
    renderPhase st = [AppEvent.render s c] := by
  unfold renderPhase
  rw [hs, hc]

theorem countP_resize_events (st : ThreeAppState) (canvas : ℚ × ℚ)
    (p : AppEvent → Bool) (h1 : ∀ id r, p (AppEvent.updateAspect id r) = false)
    (h2 : ∀ w h, p (AppEvent.setSize w h) = false) :
    (resizeApp st canvas).2.countP p = 0 := by
  unfold resizeApp
  simp only [List.countP_append, List.countP_map]
  rw [List.countP_eq_zero.mpr (fun a _ => by simp [Function.comp, h1]),
    List.countP_eq_zero.mpr (by intro a ha; simp at ha; subst ha; simp [h2])]

theorem countP_guardedResize_events (st : ThreeAppState) (canvas : ℚ × ℚ)
    (p : AppEvent → Bool) (h1 : ∀ id r, p (AppEvent.updateAspect id r) = false)
    (h2 : ∀ w h, p (AppEvent.setSize w h) = false) :
    (guardedResize st canvas).2.countP p = 0 := by
  unfold guardedResize
  split
  · exact countP_resize_events st canvas p h1 h2
  · rfl

theorem countP_stepApp (st : ThreeAppState) (canvas : ℚ × ℚ)
    (p : AppEvent → Bool) (h1 : ∀ id r, p (AppEvent.updateAspect id r) = false)
    (h2 : ∀ w h, p (AppEvent.setSize w h) = false)
    (h3 : ∀ id, p (AppEvent.stepScene id) = false)
    (h4 : ∀ id, p (AppEvent.stepCamera id) = false) :
    (stepApp st canvas).2.countP p =
      (renderPhase (guardedResize st canvas).1).countP p := by
  unfold stepApp
  simp only [List.countP_append, List.countP_map]
  rw [countP_guardedResize_events st canvas p h1 h2,
    List.countP_eq_zero.mpr (fun a _ => by simp [Function.comp, h3]),
    List.countP_eq_zero.mpr (fun a _ => by simp [Function.comp, h4])]
  simp

/-- C3 counterexample: a frame step of a `ThreeApp` with empty registries
(no active scene, no active camera) is not a silent no-op — the render
phase dereferences `this._activeScene.scene`, which throws a `TypeError`
(the fault event); no render call is issued, but the step does not
complete normally either. -/
theorem step_without_active_selection_faults :
    (stepApp initApp (0, 0)).2 = [AppEvent.fault] := by decide

/-- C3 amended: when either the active scene or the active camera is
undefined, the render phase of `step` throws a `TypeError` (exactly one
fault, no render call) instead of silently skipping the render; when both
are defined, `step` issues exactly one render call and no fault. -/
theorem step_render_phase (st : ThreeAppState) (canvas : ℚ × ℚ) :
    ((st.activeScene = none ∨ st.activeCamera = none) →
      (stepApp st canvas).2.countP isFaultEv = 1 ∧
      (stepApp st canvas).2.countP isRenderEv = 0) ∧
    (∀ s c, st.activeScene = some s → st.activeCamera = some c →
      (stepApp st canvas).2.countP isRenderEv = 1 ∧
      (stepApp st canvas).2.countP isFaultEv = 0) := by
  have hgf := guardedResize_fields st canvas
  constructor
  · intro h
    have hrp : renderPhase (guardedResize st canvas).1 = [AppEvent.fault] := by
      apply renderPhase_eq_fault
      rw [hgf.2.2.2, hgf.2.2.1]
      exact h
    constructor
    · rw [countP_stepApp st canvas isFaultEv (by intro id r; rfl) (by intro w h'; rfl)
        (by intro id; rfl) (by intro id; rfl), hrp]
      rfl
    · rw [countP_stepApp st canvas isRenderEv (by intro id r; rfl) (by intro w h'; rfl)
        (by intro id; rfl) (by intro id; rfl), hrp]
      rfl
  · intro s c hs hc
    have hrp : renderPhase (guardedResize st canvas).1 = [AppEvent.render s c] := by
      apply renderPhase_eq_render
      · rw [hgf.2.2.2]; exact hs
      · rw [hgf.2.2.1]; exact hc
    constructor
    · rw [countP_stepApp st canvas isRenderEv (by intro id r; rfl) (by intro w h'; rfl)
        (by intro id; rfl) (by intro id; rfl), hrp]
      rfl
    · rw [countP_stepApp st canvas isFaultEv (by intro id r; rfl) (by intro w h'; rfl)
        (by intro id; rfl) (by intro id; rfl), hrp]
      rfl

/-- Witness for C3 amended, at the empty app state and at an app with a
registered scene and camera. -/
theorem step_render_phase_witness :
    ((stepApp initApp (0, 0)).2.countP isFaultEv = 1 ∧
      (stepApp initApp (0, 0)).2.countP isRenderEv = 0) ∧
    ((stepApp (runApp [AppOp.regScene "s1", AppOp.regCamera "c1"]) (0, 0)).2.countP
        isRenderEv = 1 ∧
      (stepApp (runApp [AppOp.regScene "s1", AppOp.regCamera "c1"]) (0, 0)).2.countP
        isFaultEv = 0) :=
  ⟨(step_render_phase initApp (0, 0)).1 (Or.inl rfl),
   (step_render_phase (runApp [AppOp.regScene "s1", AppOp.regCamera "c1"]) (0, 0)).2
      "s1" "c1" (by decide) (by decide)⟩

/-- C9 counterexample: two direct calls of `resize()` with an unchanged
canvas client size issue the backend `setSize` call twice — `resize()`
itself is unconditional, so the backend path is not invoked "at most
once", refuting the claim. -/
theorem resize_twice_invokes_setSize_twice :
    ¬ ((resizeApp (runApp [AppOp.regCamera "cam1"]) (4, 2)).2 ++
        (resizeApp (resizeApp (runApp [AppOp.regCamera "cam1"]) (4, 2)).1 (4, 2)).2).countP
          isSetSizeEv ≤ 1 := by decide

/-- C9 amended: `resize()` unconditionally re-issues the camera
aspect-ratio updates and the renderer `setSize` on every call; its second
call with an unchanged canvas size is idempotent on the app state (same
renderer buffer size, not an error), and the frame loop's guarded resize
phase (`if (this.needsResize()) { this.resize(); }`) invokes no backend
call on a second pass with the size unchanged. -/
theorem resize_second_call_state_noop (st : ThreeAppState) (canvas : ℚ × ℚ) :
    (resizeApp (resizeApp st canvas).1 canvas).1 = (resizeApp st canvas).1 ∧
    needsResize (resizeApp st canvas).1 canvas = false ∧
    guardedResize (resizeApp st canvas).1 canvas = ((resizeApp st canvas).1, []) := by
  refine ⟨rfl, ?_, ?_⟩
  · unfold needsResize resizeApp getDisplaySize
    simp
  · unfold guardedResize
    rw [show needsResize (resizeApp st canvas).1 canvas = false from by
      unfold needsResize resizeApp getDisplaySize; simp]
    simp

/-! ## ThreeCamera (`src/unnamed/part_005`, the `three-camera` element
with zoom and controller support): update pipeline.

The element's observed properties (`type`, `options`, `position`,
`lookAt`, `zoom`, `controls`) and its private state (`_camera`,
`_controllers`) are embedded as a record.  The backend THREE camera
(`PerspectiveCamera` / `OrthographicCamera`) is embedded as a record
carrying a construction counter (`gen`, the identity of the object: each
`createCamera()` call yields a fresh one), its construction parameters,
its position, the last `lookAt(x,y,z)` target applied to it, and its zoom.
Backend calls are recorded as events; a Lit-Element update cycle is one
`updated(changedProperties)` call, embedded as a function of the new
element state and the set of changed properties (whose stored values are
the previous ones — only the previous `type` value is ever read). -/
inductive CameraType where
  | perspective
  | orthographic
deriving DecidableEq, Repr

/-- Camera settings object (`options` attribute): a JS object whose keys
depend on the camera type; an absent key is `none`. -/
structure CamOptions where
  fov : Option ℚ := none
  aspect : Option ℚ := none
  near : Option ℚ := none
  far : Option ℚ := none
  left : Option ℚ := none
  right : Option ℚ := none
  top : Option ℚ := none
  bottom : Option ℚ := none
deriving DecidableEq, Repr

/-- A key of the source object overrides the target's; an absent key
leaves the target's value — one field of `Object.assign(target, src)`. -/
def optOverride (src tgt : Option ℚ) : Option ℚ :=
  match src with
  | some v => some v
  | none => tgt

/-- `Object.assign(target, src)` over the camera-settings keys. -/
def CamOptions.assign (target src : CamOptions) : CamOptions :=
  { fov := optOverride src.fov target.fov,
    aspect := optOverride src.aspect target.aspect,
    near := optOverride src.near target.near,
    far := optOverride src.far target.far,
    left := optOverride src.left target.left,
    right := optOverride src.right target.right,
    top := optOverride src.top target.top,
    bottom := optOverride src.bottom target.bottom }

/-- `Default.options.perspectiveCamera` (part_005, lines 19–24). -/
def defaultPerspectiveOptions : CamOptions :=
  { fov := some 45, aspect := some 1, near := some (1/10), far := some 1000 }

/-- `Default.options.orthographicCamera` (part_005, lines 25–29). -/
def defaultOrthographicOptions : CamOptions :=
  { left := some (-10), right := some 10, top := some 10, bottom := some (-10),
    near := some 0, far := some 1000 }

/-- The backend THREE camera object owned by a `ThreeCamera` element. -/
structure BackendCamera where
  gen : Nat
  ctype : CameraType
  params : CamOptions
  pos : ℚ × ℚ × ℚ := (0, 0, 0)
  lookTarget : Option (ℚ × ℚ × ℚ) := none
  zoom : ℚ := 1
deriving DecidableEq, Repr

/-- A `ThreeCameraOSCController` instance
(`src/packages/three-camera/three-camera-osc-controller.js`, also in
part_005): `hasCameraRef` is whether `this.camera` (set by the
`ThreeCameraController` superclass constructor, cleared by its
`dispose()`) is still defined; `channel` is the `this.osc` websocket
client, `some ()` while open. -/
structure OSCController where
  hasCameraRef : Bool
  channel : Option Unit
deriving DecidableEq, Repr

/-- The `ThreeCamera` element state (part_005). -/
structure ThreeCameraElt where
  id : String
  ctype : CameraType
  options : CamOptions
  position : ℚ × ℚ × ℚ
  lookAt : ℚ × ℚ × ℚ
  zoom : ℚ
  controls : List String
  camera : Option BackendCamera
  oscCtrl : Option OSCController
  orbitCtrl : Option Unit
  nextGen : Nat
deriving DecidableEq, Repr

/-- Backend calls of the camera pipeline, recorded as events. -/
inductive CamEvent where
  | constructCam (gen : Nat) (t : CameraType)
  | disposeCam (gen : Nat)
  | setPos (v : ℚ × ℚ × ℚ)
  | applyLookAt (v : ℚ × ℚ × ℚ)
  | updateProjection
  | openChannel
  | closeChannel
  | disposeOrbit
  | deregisterEvt
deriving DecidableEq, Repr

/-- Result of running a fragment of the camera pipeline: the element
state reached, the backend events issued, and whether a `TypeError` was
thrown (in which case `elt` is the state at the throw point and the
remaining statements of the caller do not run). -/
structure CamStep where
  elt : ThreeCameraElt
  events : List CamEvent
  faulted : Bool
deriving DecidableEq, Repr

/-- Sequencing with exception propagation: once a step faulted, the rest
of the method body does not run. -/
def CamStep.andThen (s : CamStep) (f : ThreeCameraElt → CamStep) : CamStep :=
  if s.faulted then s
  else
    let t := f s.elt
    ⟨t.elt, s.events ++ t.events, t.faulted⟩

/-- `ThreeCamera` constructor (part_005, lines 99–120): defaults. -/
def initCameraElt : ThreeCameraElt :=
  { id := "defaultCamera", ctype := .perspective,
    options := defaultPerspectiveOptions, position := (0, -5, 2),
    lookAt := (0, 0, 0), zoom := 1, controls := [],
    camera := none, oscCtrl := none, orbitCtrl := none, nextGen := 0 }

/-- `ThreeCamera.createCamera` (part_005, lines 178–192): construct a new
backend camera of the current type from the current options.  `type` and
`options` are always defined here (the constructor assigns both), so the
definedness guard of the source always passes.  The new `PerspectiveCamera`
reads `fov/aspect/near/far`, the new `OrthographicCamera` reads
`left/right/top/bottom/near/far`; the fresh object sits at the backend
default position with no look-at applied yet. -/
def createCamera (st : ThreeCameraElt) : CamStep :=
  let params : CamOptions :=
    match st.ctype with
    | .perspective =>
        { fov := st.options.fov, aspect := st.options.aspect,
          near := st.options.near, far := st.options.far }
    | .orthographic =>
        { left := st.options.left, right := st.options.right,
          top := st.options.top, bottom := st.options.bottom,
          near := st.options.near, far := st.options.far }
  let cam : BackendCamera := { gen := st.nextGen, ctype := st.ctype, params := params }
  ⟨{ st with camera := some cam, nextGen := st.nextGen + 1 },
    [CamEvent.constructCam st.nextGen st.ctype], false⟩

/-- `ThreeCamera.disposeCamera` (part_005, lines 194–199): drop the
reference to the backend camera, if any. -/
def disposeCameraElt (st : ThreeCameraElt) : CamStep :=
  match st.camera with
  | none => ⟨st, [], false⟩
  | some c => ⟨{ st with camera := none }, [CamEvent.disposeCam c.gen], false⟩

/-- `ThreeCamera.updateOptions` (part_005, lines 201–206):
`Object.assign(this._camera, options)` then recompute the projection
matrix; throws when `_camera` is `undefined`. -/
def updateOptions (st : ThreeCameraElt) : CamStep :=
  match st.camera with
  | none => ⟨st, [], true⟩
  | some c =>
      ⟨{ st with camera := some { c with params := c.params.assign st.options } },
        [CamEvent.updateProjection], false⟩

/-- `ThreeCamera.updateDirection` (part_005, lines 220–228):
`this._camera.lookAt(x, y, z)` then recompute the projection matrix.
The `lookAt` property is always defined (the constructor assigns it), so
the definedness guard of the source always passes. -/
def updateDirection (st : ThreeCameraElt) : CamStep :=
  match st.camera with
  | none => ⟨st, [], true⟩
  | some c =>
      ⟨{ st with camera := some { c with lookTarget := some st.lookAt } },
        [CamEvent.applyLookAt st.lookAt, CamEvent.updateProjection], false⟩

/-- `ThreeCamera.updatePosition` (part_005, lines 208–218): move the
backend camera to the `position` property, then call `updateDirection()`
so that the camera keeps looking at the same target after the move. -/
def updatePosition (st : ThreeCameraElt) : CamStep :=
  match st.camera with
  | none => ⟨st, [], true⟩
  | some c =>
      (⟨{ st with camera := some { c with pos := st.position } },
          [CamEvent.setPos st.position], false⟩ : CamStep).andThen updateDirection

/-- `ThreeCamera.updateZoom` (part_005, lines 230–237). -/
def updateZoom (st : ThreeCameraElt) : CamStep :=
  match st.camera with
  | none => ⟨st, [], true⟩
  | some c =>
      ⟨{ st with camera := some { c with zoom := st.zoom } },
        [CamEvent.updateProjection], false⟩

/-- `ThreeCameraOSCController.dispose` (packages controller, lines
320–324; part_005, lines 554–558): `super.dispose()` logs
`this.camera.id` — a `TypeError` when `this.camera` was already cleared —
then clears `this.camera`; `this.osc.close()` — a `TypeError` when
`this.osc` was already cleared — then clears `this.osc`. -/
def OSCController.disposeCtrl (ctrl : OSCController) :
    OSCController × List CamEvent × Bool :=
  if ctrl.hasCameraRef then
    let c₁ : OSCController := { ctrl with hasCameraRef := false }
    match c₁.channel with
    | none => (c₁, [], true)
    | some _ => ({ c₁ with channel := none }, [CamEvent.closeChannel], false)
  else (ctrl, [], true)

/-- `ThreeCameraOSCController` constructor (packages controller, lines
99–268): the superclass stores the camera reference; a non-perspective
camera aborts initialization (no websocket opened), otherwise the
websocket channel is opened and the message handlers registered. -/
def mkOSCControllerCtor (t : CameraType) : OSCController × List CamEvent :=
  if t = .perspective then
    ({ hasCameraRef := true, channel := some () }, [CamEvent.openChannel])
  else ({ hasCameraRef := true, channel := none }, [])

/-- `ThreeCamera.disposeControls` (part_005, lines 261–273): dispose the
OSC controller if attached, clearing the reference, then likewise the
orbit controller.  A `TypeError` thrown by a controller's `dispose()`
propagates, leaving the reference in place.  The orbit controller's own
source (`three-camera-orbit-controller.js`) is not part of the sources;
only its presence and its detach call are modelled (spec §4.2: disposal
of controllers no longer present). -/
def disposeControls (st : ThreeCameraElt) : CamStep :=
  let s₁ : CamStep :=
    match st.oscCtrl with
    | none => ⟨st, [], false⟩
    | some ctrl =>
        let r := ctrl.disposeCtrl
        if r.2.2 then ⟨{ st with oscCtrl := some r.1 }, r.2.1, true⟩
        else ⟨{ st with oscCtrl := none }, r.2.1, false⟩
  s₁.andThen fun st₁ =>
    match st₁.orbitCtrl with
    | none => ⟨st₁, [], false⟩
    | some _ => ⟨{ st₁ with orbitCtrl := none }, [CamEvent.disposeOrbit], false⟩

/-- `ThreeCamera.updateControls` (part_005, lines 239–259): dispose the
controllers that were active, then construct the controllers listed in
the `controls` attribute (OSC first, then orbit). -/
def updateControls (st : ThreeCameraElt) : CamStep :=
  (disposeControls st).andThen fun st₁ =>
    (if st₁.controls.contains "osc" then
      let r := mkOSCControllerCtor st₁.ctype
      (⟨{ st₁ with oscCtrl := some r.1 }, r.2, false⟩ : CamStep)
    else ⟨st₁, [], false⟩).andThen fun st₂ =>
      if st₂.controls.contains "orbitter" then
        ⟨{ st₂ with orbitCtrl := some () }, [], false⟩
      else ⟨st₂, [], false⟩

/-- The set of changed properties passed to `updated(changedProperties)`:
a property is present iff it changed in this update cycle; the map's
values are the previous property values, of which only the previous
`type` is ever read (`none` embeds `undefined`, the first update). -/
structure ChangedProps where
  typePrev : Option (Option CameraType) := none
  optionsChanged : Bool := false
  positionChanged : Bool := false
  lookAtChanged : Bool := false
  zoomChanged : Bool := false
  controlsChanged : Bool := false
deriving DecidableEq, Repr

/-- `ThreeCamera.updated` (part_005, lines 147–176): on a `type` change
whose previous value differs from the current one, dispose controllers,
dispose the backend camera and construct a new one; otherwise apply an
`options` change in place.  Then a `position` change runs
`updatePosition()` (which re-applies the gaze target), an isolated
`lookAt` change runs `updateDirection()` — the `else if` avoids applying
the look-at twice when both changed.  Then `zoom` and `controls`
changes. -/
def updatedCam (st : ThreeCameraElt) (ch : ChangedProps) : CamStep :=
  (match ch.typePrev with
    | some prev =>
        if prev ≠ some st.ctype then
          ((disposeControls st).andThen disposeCameraElt).andThen createCamera
        else ⟨st, [], false⟩
    | none =>
        if ch.optionsChanged then updateOptions st else ⟨st, [], false⟩).andThen
    (fun st₁ =>
      if ch.positionChanged then updatePosition st₁
      else if ch.lookAtChanged then updateDirection st₁
      else ⟨st₁, [], false⟩) |>.andThen
    (fun st₂ => if ch.zoomChanged then updateZoom st₂ else ⟨st₂, [], false⟩) |>.andThen
    (fun st₃ => if ch.controlsChanged then updateControls st₃ else ⟨st₃, [], false⟩)

/-- Assigning the `type` property: Lit-Element's generated accessor
requests an update only when the new value differs from the old
(`hasChanged` defaults to `old !== value`), and `updated` then receives
the previous value; assigning an equal value is a no-op. -/
def setCameraType (st : ThreeCameraElt) (t : CameraType) : CamStep :=
  if t = st.ctype then ⟨st, [], false⟩
  else updatedCam { st with ctype := t } { typePrev := some (some st.ctype) }

/-- Assigning the `options` property: a freshly parsed or constructed
options object is a distinct JS object, so `old !== value` holds and an
update cycle with `options` changed always runs. -/
def setCameraOptions (st : ThreeCameraElt) (o : CamOptions) : CamStep :=
  updatedCam { st with options := o } { optionsChanged := true }

/-- Assigning the `position` property (a fresh array instance): an update
cycle with `position` changed runs. -/
def setCameraPosition (st : ThreeCameraElt) (p : ℚ × ℚ × ℚ) : CamStep :=
  updatedCam { st with position := p } { positionChanged := true }

/-- Assigning `position` and `lookAt` before the same update flush: one
update cycle with both properties changed. -/
def setCameraPositionAndLookAt (st : ThreeCameraElt) (p l : ℚ × ℚ × ℚ) : CamStep :=
  updatedCam { st with position := p, lookAt := l }
    { positionChanged := true, lookAtChanged := true }

/-- `ThreeCamera.disconnectedCallback` (part_005, lines 308–314):
dispatch the camera-disconnected event, dispose the controllers, dispose
the backend camera. -/
def disconnectedCam (st : ThreeCameraElt) : CamStep :=
  (⟨st, [CamEvent.deregisterEvt], false⟩ : CamStep).andThen disposeControls
    |>.andThen disposeCameraElt

/-- Recognizes a backend-camera construction event. -/
def isConstructEv : CamEvent → Bool
  | .constructCam _ _ => true
  | _ => false

/-- Recognizes a backend-camera disposal event. -/
def isDisposeCamEv : CamEvent → Bool
  | .disposeCam _ => true
  | _ => false

/-- Recognizes a `camera.lookAt(x,y,z)` application event. -/
def isApplyLookAtEv : CamEvent → Bool
  | .applyLookAt _ => true
  | _ => false

/-- Recognizes a websocket channel close event. -/
def isCloseChannelEv : CamEvent → Bool
  | .closeChannel => true
  | _ => false

theorem setCameraPosition_eq (st : ThreeCameraElt) (c : BackendCamera)
    (p : ℚ × ℚ × ℚ) (h : st.camera = some c) :
    setCameraPosition st p =
      ⟨{ st with
          position := p,
          camera := some { c with pos := p, lookTarget := some st.lookAt } },
        [CamEvent.setPos p, CamEvent.applyLookAt st.lookAt,
          CamEvent.updateProjection], false⟩ := by
  simp [setCameraPosition, updatedCam, updatePosition, updateDirection,
    CamStep.andThen, h]

theorem setCameraPositionAndLookAt_eq (st : ThreeCameraElt) (c : BackendCamera)
    (p l : ℚ × ℚ × ℚ) (h : st.camera = some c) :
    setCameraPositionAndLookAt st p l =
      ⟨{ st with
          position := p,
          lookAt := l,
          camera := some { c with pos := p, lookTarget := some l } },
        [CamEvent.setPos p, CamEvent.applyLookAt l,
          CamEvent.updateProjection], false⟩ := by
  simp [setCameraPositionAndLookAt, updatedCam, updatePosition, updateDirection,
    CamStep.andThen, h]

/-- C5: a `ThreeCamera` update cycle in which `position` changed and
`lookAt` did not leaves the `lookAt` property unchanged, moves the
backend camera to the new position and re-orients it toward the prior
`lookAt` value (one `lookAt` application, recorded with the prior
target); and an update cycle in which both `position` and `lookAt`
changed applies the new `lookAt` exactly once — no double
application. -/
theorem position_update_preserves_gaze (st : ThreeCameraElt) (c : BackendCamera)
    (p : ℚ × ℚ × ℚ) (h : st.camera = some c) :
    ((setCameraPosition st p).faulted = false ∧
      (setCameraPosition st p).elt.lookAt = st.lookAt ∧
      (setCameraPosition st p).elt.camera =
        some { c with pos := p, lookTarget := some st.lookAt } ∧
      (setCameraPosition st p).events =
        [CamEvent.setPos p, CamEvent.applyLookAt st.lookAt,
          CamEvent.updateProjection] ∧
      (setCameraPosition st p).events.countP isApplyLookAtEv = 1) ∧
    (∀ l, (setCameraPositionAndLookAt st p l).faulted = false ∧
      (setCameraPositionAndLookAt st p l).elt.camera =
        some { c with pos := p, lookTarget := some l } ∧
      (setCameraPositionAndLookAt st p l).events.countP isApplyLookAtEv = 1) := by
  constructor
  · rw [setCameraPosition_eq st c p h]
    refine ⟨rfl, rfl, rfl, rfl, ?_⟩
    simp [List.countP_cons, isApplyLookAtEv]
  · intro l
    rw [setCameraPositionAndLookAt_eq st c p l h]
    refine ⟨rfl, rfl, ?_⟩
    simp [List.countP_cons, isApplyLookAtEv]

/-- A backend camera at generation 0, as built by the first update cycle
of a default `ThreeCamera` element. -/
def exCam : BackendCamera :=
  { gen := 0, ctype := .perspective, params := defaultPerspectiveOptions }

/-- A `ThreeCamera` element holding `exCam`. -/
def exCamElt : ThreeCameraElt :=
  { initCameraElt with camera := some exCam, nextGen := 1 }

/-- Witness for C5 at a concrete camera element and position `[1,2,3]`. -/
theorem position_update_preserves_gaze_witness :
    (setCameraPosition exCamElt (1, 2, 3)).elt.lookAt = exCamElt.lookAt ∧
    (setCameraPosition exCamElt (1, 2, 3)).elt.camera =
      some { exCam with pos := (1, 2, 3), lookTarget := some exCamElt.lookAt } ∧
    (setCameraPositionAndLookAt exCamElt (1, 2, 3) (4, 5, 6)).events.countP
      isApplyLookAtEv = 1 :=
  ⟨(position_update_preserves_gaze exCamElt exCam (1, 2, 3) rfl).1.2.1,
   (position_update_preserves_gaze exCamElt exCam (1, 2, 3) rfl).1.2.2.1,
   ((position_update_preserves_gaze exCamElt exCam (1, 2, 3) rfl).2 (4, 5, 6)).2.2⟩

theorem setCameraType_perspective_to_orthographic_eq (st : ThreeCameraElt)
    (c : BackendCamera) (h1 : st.camera = some c)
    (h2 : st.ctype = CameraType.perspective)
    (h3 : st.oscCtrl = none) (h4 : st.orbitCtrl = none) :
    setCameraType st CameraType.orthographic =
      ⟨{ st with
          ctype := CameraType.orthographic,
          camera := some
            { gen := st.nextGen, ctype := CameraType.orthographic,
              params :=
                { left := st.options.left, right := st.options.right,
                  top := st.options.top, bottom := st.options.bottom,
                  near := st.options.near, far := st.options.far } },
          nextGen := st.nextGen + 1 },
        [CamEvent.disposeCam c.gen,
          CamEvent.constructCam st.nextGen CameraType.orthographic], false⟩ := by
  simp [setCameraType, h2, updatedCam, disposeControls, h3, h4, disposeCameraElt,
    h1, createCamera, CamStep.andThen]

theorem setCameraOptions_eq (st : ThreeCameraElt) (c : BackendCamera)
    (h : st.camera = some c) (o : CamOptions) :
    setCameraOptions st o =
      ⟨{ st with
          options := o,
          camera := some { c with params := c.params.assign o } },
        [CamEvent.updateProjection], false⟩ := by
  simp [setCameraOptions, updatedCam, updateOptions, CamStep.andThen, h]

/-- C6: changing a camera's `type` from perspective to orthographic runs
exactly one dispose and one construct of the backend projection object
(the new object carries the fresh construction counter, so it is not the
old one); a subsequent `options` update runs no dispose/construct and
merges the parameters onto that new object only; and re-assigning
`type = "orthographic"` a second time is a complete no-op for the
projection object (no update cycle, no events). -/
theorem kind_change_one_dispose_construct_cycle (st : ThreeCameraElt)
    (c : BackendCamera) (h1 : st.camera = some c)
    (h2 : st.ctype = CameraType.perspective)
    (h3 : st.oscCtrl = none) (h4 : st.orbitCtrl = none)
    (h5 : c.gen ≠ st.nextGen) :
    ((setCameraType st CameraType.orthographic).faulted = false ∧
      (setCameraType st CameraType.orthographic).events.countP isDisposeCamEv = 1 ∧
      (setCameraType st CameraType.orthographic).events.countP isConstructEv = 1 ∧
      (setCameraType st CameraType.orthographic).elt.camera.map BackendCamera.ctype
        = some CameraType.orthographic ∧
      (setCameraType st CameraType.orthographic).elt.camera.map BackendCamera.gen
        = some st.nextGen ∧
      (setCameraType st CameraType.orthographic).elt.camera ≠ some c) ∧
    (∀ o : CamOptions,
      (setCameraOptions (setCameraType st CameraType.orthographic).elt o).events.countP
          isDisposeCamEv = 0 ∧
      (setCameraOptions (setCameraType st CameraType.orthographic).elt o).events.countP
          isConstructEv = 0 ∧
      (setCameraOptions (setCameraType st CameraType.orthographic).elt o).elt.camera.map
          BackendCamera.gen = some st.nextGen ∧
      (setCameraOptions (setCameraType st CameraType.orthographic).elt o).elt.camera
        = (setCameraType st CameraType.orthographic).elt.camera.map
            (fun c₂ => { c₂ with params := c₂.params.assign o })) ∧
    setCameraType (setCameraType st CameraType.orthographic).elt
        CameraType.orthographic
      = ⟨(setCameraType st CameraType.orthographic).elt, [], false⟩ := by
  rw [setCameraType_perspective_to_orthographic_eq st c h1 h2 h3 h4]
  refine ⟨⟨rfl, ?_, ?_, rfl, rfl, ?_⟩, ?_, ?_⟩
  · simp [List.countP_cons, isDisposeCamEv]
  · simp [List.countP_cons, isConstructEv]
  · intro hEq
    simp only [Option.some.injEq] at hEq
    exact h5 (congrArg BackendCamera.gen hEq).symm
  · intro o
    rw [setCameraOptions_eq _ _ rfl o]
    exact ⟨rfl, rfl, rfl, rfl⟩
  · simp [setCameraType]

/-- Witness for C6 at a concrete perspective camera element. -/
theorem kind_change_one_dispose_construct_cycle_witness :
    (setCameraType exCamElt CameraType.orthographic).events.countP
      isDisposeCamEv = 1 ∧
    (setCameraType exCamElt CameraType.orthographic).events.countP
      isConstructEv = 1 ∧
    setCameraType (setCameraType exCamElt CameraType.orthographic).elt
        CameraType.orthographic
      = ⟨(setCameraType exCamElt CameraType.orthographic).elt, [], false⟩ :=
  ⟨(kind_change_one_dispose_construct_cycle exCamElt exCam rfl rfl rfl rfl
      (by decide)).1.2.1,
   (kind_change_one_dispose_construct_cycle exCamElt exCam rfl rfl rfl rfl
      (by decide)).1.2.2.1,
   (kind_change_one_dispose_construct_cycle exCamElt exCam rfl rfl rfl rfl
      (by decide)).2.2⟩

/-- An OSC controller in its post-initialization state: camera reference
held, websocket channel open. -/
def liveOSCController : OSCController :=
  { hasCameraRef := true, channel := some () }

/-- C8 counterexample: on a live OSC controller, the first `dispose()`
closes the channel once without throwing; the second `dispose()` call
throws a `TypeError` (`super.dispose()` reads `this.camera.id` after the
first call cleared `this.camera`) — so `dispose()` is not idempotent:
calling it twice in a row does throw (though it does not close the
channel a second time). -/
theorem osc_dispose_second_call_throws :
    liveOSCController.disposeCtrl.2.2 = false ∧
    liveOSCController.disposeCtrl.2.1.countP isCloseChannelEv = 1 ∧
    liveOSCController.disposeCtrl.1.disposeCtrl.2.2 = true ∧
    liveOSCController.disposeCtrl.1.disposeCtrl.2.1.countP isCloseChannelEv = 0 := by
  decide

/-- C8 amended: unmounting a `ThreeCamera` element with an active OSC
controller closes the controller's channel exactly once and throws
nothing — `disposeControls` clears the controller reference, so the
controller is never disposed twice through the element; but the
controller's `dispose()` itself is not idempotent: on any live
controller, a second direct `dispose()` call throws a `TypeError` and
does not close the channel a second time. -/
theorem unmount_closes_channel_once (st : ThreeCameraElt)
    (h1 : st.oscCtrl = some liveOSCController) (h2 : st.orbitCtrl = none) :
    ((disconnectedCam st).faulted = false ∧
      (disconnectedCam st).events.countP isCloseChannelEv = 1 ∧
      (disconnectedCam st).elt.oscCtrl = none) ∧
    (∀ ctrl : OSCController, ctrl.hasCameraRef = true → ctrl.channel = some () →
      ctrl.disposeCtrl.2.2 = false ∧
      ctrl.disposeCtrl.2.1.countP isCloseChannelEv = 1 ∧
      ctrl.disposeCtrl.1.disposeCtrl.2.2 = true ∧
      ctrl.disposeCtrl.1.disposeCtrl.2.1.countP isCloseChannelEv = 0) := by
  constructor
  · cases hc : st.camera with
    | none =>
        refine ⟨?_, ?_, ?_⟩ <;>
          simp [disconnectedCam, disposeControls, OSCController.disposeCtrl,
            liveOSCController, h1, h2, hc, CamStep.andThen, disposeCameraElt,
            List.countP_cons, isCloseChannelEv]
    | some c =>
        refine ⟨?_, ?_, ?_⟩ <;>
          simp [disconnectedCam, disposeControls, OSCController.disposeCtrl,
            liveOSCController, h1, h2, hc, CamStep.andThen, disposeCameraElt,
            List.countP_cons, isCloseChannelEv]
  · intro ctrl hA hB
    obtain ⟨cref, cch⟩ := ctrl
    simp only at hA hB
    subst hA
    subst hB
    decide

/-- Witness for C8 amended: a camera element carrying a live OSC
controller, unmounted. -/
theorem unmount_closes_channel_once_witness :
    (disconnectedCam { exCamElt with oscCtrl := some liveOSCController }).faulted
        = false ∧
    (disconnectedCam { exCamElt with
        oscCtrl := some liveOSCController }).events.countP isCloseChannelEv = 1 ∧
    liveOSCController.disposeCtrl.1.disposeCtrl.2.2 = true :=
  ⟨(unmount_closes_channel_once { exCamElt with oscCtrl := some liveOSCController }
      rfl rfl).1.1,
   (unmount_closes_channel_once { exCamElt with oscCtrl := some liveOSCController }
      rfl rfl).1.2.1,
   ((unmount_closes_channel_once { exCamElt with oscCtrl := some liveOSCController }
      rfl rfl).2 liveOSCController rfl rfl).2.2.1⟩

/-! ## ThreeCameraOSCController: the `/camera/zNear` handler
(`src/packages/three-camera/three-camera-osc-controller.js`,
lines 4–11 and 206–223).

The handler's clamping envelope is
`Default.options.perspectiveCamera.{near,far}` imported from the
`three-camera` package module
(`src/packages/three-camera/three-camera.js`, lines 17–23). -/

/-- `near` of the package camera's default perspective options. -/
def pkgDefaultNear : ℚ := 1

/-- `far` of the package camera's default perspective options. -/
def pkgDefaultFar : ℚ := 1000

/-- `clamp(x, min, max)` (controller lines 4–11): `none` embeds the
`RangeError` thrown when `min > max`. -/
def clamp (x mn mx : ℚ) : Option ℚ :=
  if mn > mx then none
  else if x < mn then some mn
  else if x > mx then some mx
  else some x

/-- The `/camera/zNear` message handler (controller lines 206–223): from
the relative delta argument `dz`, the new near value is
`clamp(oldNear + 5.0 * (-0.5 + dz), defaultNear, defaultFar)`; it is
written back to `camera.options.near` only when it differs from the old
value (the near value is the clamped result either way).  A `RangeError`
from `clamp` would abort the handler, leaving `near` unchanged. -/
def zNearHandler (oldNear dz : ℚ) : ℚ :=
  match clamp (oldNear + 5 * (-(1/2) + dz)) pkgDefaultNear pkgDefaultFar with
  | some newNear => newNear
  | none => oldNear

/-- A sequence of `/camera/zNear` messages applied to a starting `near`
value: each handler invocation reads the near value left by the previous
one. -/
def zNearRun (near₀ : ℚ) (ds : List ℚ) : ℚ :=
  ds.foldl zNearHandler near₀

theorem zNearHandler_mem_envelope (n d : ℚ) :
    pkgDefaultNear ≤ zNearHandler n d ∧ zNearHandler n d ≤ pkgDefaultFar := by
  unfold zNearHandler clamp pkgDefaultNear pkgDefaultFar
  split_ifs with hmm h1 h2
  · exact absurd hmm (by norm_num)
  · norm_num
  · norm_num
  · simp only
    constructor <;> linarith

/-- C7: starting from a `near` value inside the default
`[defaultNear, defaultFar]` envelope, after any sequence of
`/camera/zNear` messages with arbitrary relative deltas the camera's
`near` value is still inside the envelope — each handler invocation
clamps, so repeated large deltas can never push `near` outside. -/
theorem zNear_stays_in_envelope (near₀ : ℚ) (ds : List ℚ)
    (h1 : pkgDefaultNear ≤ near₀) (h2 : near₀ ≤ pkgDefaultFar) :
    pkgDefaultNear ≤ zNearRun near₀ ds ∧ zNearRun near₀ ds ≤ pkgDefaultFar := by
  induction ds generalizing near₀ with
  | nil => exact ⟨h1, h2⟩
  | cons d t ih =>
      have hd := zNearHandler_mem_envelope near₀ d
      exact ih (zNearHandler near₀ d) hd.1 hd.2

/-- Witness for C7: starting at the default near value 1, two large
deltas in a row leave `near` inside `[1, 1000]`. -/
theorem zNear_stays_in_envelope_witness :
    pkgDefaultNear ≤ zNearRun 1 [100, -100] ∧
      zNearRun 1 [100, -100] ≤ pkgDefaultFar :=
  zNear_stays_in_envelope 1 [100, -100] (by norm_num [pkgDefaultNear])
    (by norm_num [pkgDefaultNear, pkgDefaultFar])

/-! ## ThreeForceGraph (`src/unnamed/part_011`): node/link creation and
the disposables list.

Backend objects (geometries, materials, meshes, lines, lights) are
embedded as numeric tags minted from a counter, so object identity is
explicit.  `group` is the children of the `_group` `THREE.Group` (created
by `refresh()`; the constructor leaves `_group` null, and `refresh()` runs
on the first update cycle before any node is added); `sceneHasGroup` /
`sceneHasLight` record whether the group and the ambient light are
attached to the enclosing scene.  The ngraph layout calls
(`setNodePosition`, `pinNode`, `layout.step()`) and the display
parameters (colors, sizes, opacities) play no part in the resource
bookkeeping and are not modelled. -/
structure ForceGraphState where
  disposables : List Nat
  nodesMeshes : List Nat
  linksMeshes : List Nat
  group : List Nat
  graphNodes : List (String × Nat)
  graphLinks : List ((String × String) × Nat)
  nodesCounter : Nat
  sceneHasLight : Bool
  sceneHasGroup : Bool
  earth : Option Nat
  light : Option Nat
  nextTag : Nat
deriving DecidableEq, Repr

/-- Creation of a backend object, or a thrown `TypeError`. -/
inductive FgEvent where
  | created (tag : Nat)
  | fault
deriving DecidableEq, Repr

/-- `ThreeForceGraph` constructor (part_011, lines 107–145) followed by
`init()` (lines 148–152): the `initEarth()` call is commented out, so
`_earth` stays `undefined`; `initLight()` creates the ambient light
(tag 0) and registers it as a disposable; `init()` adds the light to the
scene. -/
def initFG : ForceGraphState :=
  { disposables := [0], nodesMeshes := [], linksMeshes := [], group := [],
    graphNodes := [], graphLinks := [], nodesCounter := 0,
    sceneHasLight := true, sceneHasGroup := false,
    earth := none, light := some 0, nextTag := 1 }

/-- `ThreeForceGraph.addNode` (part_011, lines 246–282): bump the node
counter; create a sphere geometry, a material and a mesh, registering
each with `this.disposable(...)`; track the mesh in `_nodesMeshes`; add
the ngraph node with the mesh in its data; add the mesh to the group. -/
def addNodeFG (st : ForceGraphState) (id : String) :
    ForceGraphState × List FgEvent :=
  let g := st.nextTag
  let m := st.nextTag + 1
  let s := st.nextTag + 2
  ({ st with
      nodesCounter := st.nodesCounter + 1,
      disposables := st.disposables ++ [g, m, s],
      nodesMeshes := st.nodesMeshes ++ [s],
      graphNodes := st.graphNodes ++ [(id, s)],
      group := st.group ++ [s],
      nextTag := st.nextTag + 3 },
    [FgEvent.created g, FgEvent.created m, FgEvent.created s])

/-- `ThreeForceGraph.addLink` (part_011, lines 287–317): create a line
material, a geometry and a line, registering each with
`this.disposable(...)`; track the line in `_linksMeshes`; add the ngraph
link with the line in its data; add the line to the group. -/
def addLinkFG (st : ForceGraphState) (src dst : String) :
    ForceGraphState × List FgEvent :=
  let m := st.nextTag
  let g := st.nextTag + 1
  let l := st.nextTag + 2
  ({ st with
      disposables := st.disposables ++ [m, g, l],
      linksMeshes := st.linksMeshes ++ [l],
      graphLinks := st.graphLinks ++ [((src, dst), l)],
      group := st.group ++ [l],
      nextTag := st.nextTag + 3 },
    [FgEvent.created m, FgEvent.created g, FgEvent.created l])

/-- `ThreeForceGraph.addNodeWithLink` (part_011, lines 215–218). -/
def addNodeWithLinkFG (st : ForceGraphState) (id : String) :
    ForceGraphState × List FgEvent :=
  let r₁ := addNodeFG st id
  let r₂ := addLinkFG r₁.1 "centralNode" id
  (r₂.1, r₁.2 ++ r₂.2)

/-- `ThreeForceGraph.clear` (part_011, lines 445–449): remove the group
from the scene, replace it by a fresh empty group, clear the ngraph
graph.  `_nodesMeshes`, `_linksMeshes` and `__disposables` are not
cleared. -/
def clearFG (st : ForceGraphState) : ForceGraphState :=
  { st with
    sceneHasGroup := false,
    group := [],
    graphNodes := [],
    graphLinks := [] }

/-- `ThreeForceGraph.refresh` (part_011, lines 427–443) with the default
`generate = 0`: reset the node counter, `clear()`, fresh group,
`initGraph()` (which adds the pinned `centralNode`), then one
`addNodeWithLink` per entry of the `data` attribute (embedded by its node
ids), and finally add the group to the scene. -/
def refreshFG (st : ForceGraphState) (data : List String) :
    ForceGraphState × List FgEvent :=
  let st₁ := clearFG { st with nodesCounter := 0 }
  let r₂ := addNodeFG st₁ "centralNode"
  let r₃ := data.foldl
    (fun acc d =>
      let r := addNodeWithLinkFG acc.1 d
      (r.1, acc.2 ++ r.2))
    r₂
  ({ r₃.1 with sceneHasGroup := true }, r₃.2)

/-- `ThreeForceGraph.dispose` (part_011, lines 406–425): clear the
texture references (not modelled); `this.scene.remove(this._earth)` — a
no-op, `_earth` is `undefined` and removing an absent object from a
THREE scene does nothing; `this.scene.remove(this._light)`; then
`this._earth.geometry = undefined` throws a `TypeError` (`_earth` is
`undefined` since `initEarth()` is commented out), aborting the rest of
the method — including the disposables loop
`this.__disposables.forEach((el) => { el = undefined })`, which even when
reached only reassigns the callback parameter and releases nothing. -/
def disposeFG (st : ForceGraphState) : ForceGraphState × List FgEvent × Bool :=
  let st₁ := { st with sceneHasLight := false }
  match st₁.earth with
  | none => (st₁, [FgEvent.fault], true)
  | some _ => ({ st₁ with earth := none, light := none }, [], false)

/-- The tags of the backend objects created in an event trace. -/
def createdTags (evs : List FgEvent) : List Nat :=
  evs.filterMap fun e =>
    match e with
    | .created t => some t
    | .fault => none

/-- The force graph after its first refresh with the three default data
nodes (part_011, `Default.data`): the failing input for C10. -/
def fgAfterRefresh : ForceGraphState × List FgEvent :=
  refreshFG initFG ["1", "2", "3"]

/-- C10: on the force graph refreshed with the default data, every
backend object created by the `addNode`/`addLink` calls is registered in
the disposables list (first conjunct — this half of the claim holds);
but `dispose()` then throws a `TypeError` on `this._earth.geometry`
(`initEarth()` is commented out), and even its reached part releases
nothing: the disposables list still holds every object, and the group
with every node/link mesh is still attached to the scene — contradicting
`dispose()`'s own stated purpose of avoiding leaks. -/
theorem forceGraph_dispose_releases_nothing :
    ((createdTags fgAfterRefresh.2).all
      (fun t => fgAfterRefresh.1.disposables.contains t)) = true ∧
    (disposeFG fgAfterRefresh.1).2.2 = true ∧
    (disposeFG fgAfterRefresh.1).1.disposables = fgAfterRefresh.1.disposables ∧
    (disposeFG fgAfterRefresh.1).1.disposables ≠ [] ∧
    (disposeFG fgAfterRefresh.1).1.sceneHasGroup = true ∧
    (disposeFG fgAfterRefresh.1).1.group ≠ [] := by decide
